import Mathlib

/-!
Verification of the Assessment Engine of `fitness-ai-form` (`app.py`).

The nutrition calculator, the meal-plan generator and the posture analyzer
are embedded shallowly: Python floats become exact rationals (reals for the
trigonometric posture geometry), Python `round` (banker's rounding,
half-to-even) becomes `pyround`, Python string operations on the allergy
list and the dish catalog are modelled character-exactly on `List Char`.
Division by zero, which raises in Python, is modelled with `Option`.
-/

namespace FitnessApp

/-- Python's built-in `round` to an integer: round half to even. -/
def pyround (q : ℚ) : ℤ :=
  let f : ℤ := ⌊q⌋
  let r : ℚ := q - f
  if r < 1/2 then f
  else if 1/2 < r then f + 1
  else if 2 ∣ f then f else f + 1

/-- Python's `round(x, 2)`: round to two decimal places (half to even). -/
def round2 (q : ℚ) : ℚ := (pyround (q * 100) : ℚ) / 100

/-- `calc_bmi` (app.py line 118): `round(weight_kg / (height_cm/100)**2, 2)`.
Python raises `ZeroDivisionError` when `height_cm` is zero, modelled as
`none`; there is no other validation in the source. -/
def calc_bmi (weight_kg height_cm : ℚ) : Option ℚ :=
  if height_cm = 0 then none
  else some (round2 (weight_kg / (height_cm / 100) ^ 2))

/-- `mifflin_st_jeor_bmr` (app.py line 123): the male branch fires only on
the exact string, every other gender string takes the `-161` branch. -/
def mifflin_st_jeor_bmr (gender : String) (weight_kg height_cm age : ℚ) : ℚ :=
  if gender = "男性" then 10 * weight_kg + 6.25 * height_cm - 5 * age + 5
  else 10 * weight_kg + 6.25 * height_cm - 5 * age - 161

/-- `activity_factor` (app.py line 131): a five-entry table with
`dict.get` default 1.2. -/
def activity_factor (level : String) : ℚ :=
  if level = "低い（デスクワーク中心/運動ほぼ無し）" then 1.2
  else if level = "やや低い（週1〜2軽い運動）" then 1.375
  else if level = "普通（週3〜4運動）" then 1.55
  else if level = "高い（週5以上ハード）" then 1.725
  else if level = "非常に高い（アスリート級）" then 1.9
  else 1.2

/-- `target_calories_from_goal` (app.py line 142); Python `round` returns an
integer here. -/
def target_calories_from_goal (tdee : ℚ) (goal : String) : ℤ :=
  if goal = "減量（-15〜20%）" then pyround (tdee * 0.85)
  else if goal = "緩やか減量（-10%）" then pyround (tdee * 0.90)
  else if goal = "現状維持" then pyround tdee
  else if goal = "増量（+10%）" then pyround (tdee * 1.10)
  else pyround tdee

/-- `macro_plan` (app.py line 155). The `goal` parameter is unused in the
source as well. -/
def macro_plan (weight_kg calories : ℚ) (goal : String) : ℤ × ℤ × ℤ :=
  let protein_g := 1.8 * weight_kg
  let fat_kcal := calories * 0.25
  let fat_g := fat_kcal / 9
  let protein_kcal := protein_g * 4
  let carbs_kcal := max 0 (calories - (protein_kcal + fat_kcal))
  let carbs_g := carbs_kcal / 4
  (pyround protein_g, pyround fat_g, pyround carbs_g)

/-- The calorie target as the form pipeline computes it (app.py lines
417-420): BMR, times the activity factor, through the goal table. -/
def pipeline_target (gender : String) (weight_kg height_cm age : ℚ)
    (activity_level goal : String) : ℤ :=
  target_calories_from_goal
    (mifflin_st_jeor_bmr gender weight_kg height_cm age * activity_factor activity_level)
    goal

/-- The macro triple of the Assessment the form pipeline stores (app.py
line 421): `macro_plan` applied to the rounded calorie target. -/
def assessment_macros (gender : String) (weight_kg height_cm age : ℚ)
    (activity_level goal : String) : ℤ × ℤ × ℤ :=
  macro_plan weight_kg (pipeline_target gender weight_kg height_cm age activity_level goal) goal

/-! ### Meal-plan generator (`meal_suggestions`, app.py line 169)

Python string primitives are modelled character-exactly on `List Char`:
`split(",")`, `strip()`, `lower()`, the substring test `in`, `', '.join`
and `startswith`. -/

/-- Python `s.split(",")`: fields between commas, empty fields kept. -/
def split_on_comma : List Char → List (List Char)
  | [] => [[]]
  | c :: cs =>
    match split_on_comma cs with
    | [] => [[]]
    | t :: ts => if c = ',' then [] :: t :: ts else (c :: t) :: ts

/-- Python `s.strip()`: whitespace removed from both ends. -/
def strip_ws (s : List Char) : List Char :=
  ((s.dropWhile Char.isWhitespace).reverse.dropWhile Char.isWhitespace).reverse

/-- Python `s.lower()`, character by character. -/
def lower_str (s : String) : String := String.mk (s.data.map Char.toLower)

/-- Whether `needle` is an initial segment of `hay`. -/
def starts_list : List Char → List Char → Bool
  | [], _ => true
  | _ :: _, [] => false
  | a :: as, b :: bs => a == b && starts_list as bs

/-- Python's substring test `needle in hay` (contiguous occurrence). -/
def contains_list (needle : List Char) : List Char → Bool
  | [] => needle.isEmpty
  | b :: bs => starts_list needle (b :: bs) || contains_list needle bs

/-- Python `needle in hay` on strings. -/
def str_contains (hay needle : String) : Bool := contains_list needle.data hay.data

/-- `avoid = [a.strip() for a in allergies.split(",") if a.strip()]`
(app.py line 170). -/
def parse_avoid (allergies : String) : List String :=
  (((split_on_comma allergies.data).map fun a => String.mk (strip_ws a)).filter
    fun a => a ≠ "")

/-- `ok(item)` (app.py line 173): no avoided token occurs, case-folded, in
the dish description. -/
def meal_ok (avoid : List String) (item : String) : Bool :=
  avoid.all fun a => !(str_contains (lower_str item) (lower_str a))

def breakfast_items : List String :=
  ["オートミール+無糖ヨーグルト+ベリー",
   "全卵1+卵白2のスクランブル+玄米おにぎり",
   "プロテインシェイク+バナナ"]

def lunch_items : List String :=
  ["鶏むねグリル150g+雑穀米150g+サラダ",
   "鮭の塩焼き+さつまいも200g+味噌汁",
   "豆腐ステーキ+玄米150g+野菜炒め"]

def dinner_items : List String :=
  ["白身魚のホイル焼き+ブロッコリー+じゃがいも150g",
   "豚ヒレ100g+白菜スープ+玄米120g",
   "鶏つくね鍋（春雨少量）"]

def snack_items : List String :=
  ["プロテインバー/和風おにぎり/枝豆/ミックスナッツ少量"]

/-- The placeholder emitted for an empty breakfast/lunch/dinner slot
(app.py lines 203-205). -/
def placeholder_dish : String := "（該当食材を回避して選択）"

/-- Python's `xs or [placeholder]` on a list value. -/
def or_placeholder (l : List String) : List String :=
  if l.isEmpty then [placeholder_dish] else l

/-- `goal.startswith("減量")` (app.py line 171). -/
def goal_is_cut (goal : String) : Bool := starts_list "減量".data goal.data

/-- The coaching note for a cut goal (app.py line 199, then-branch). -/
def cut_note : String := "減量中：脂質控えめ・高たんぱくを意識"

/-- The coaching note for maintain/bulk (app.py line 199, else-branch). -/
def bulk_note : String := "増量/維持：炭水化物を運動前後に寄せる"

/-- Python `', '.join l`. -/
def join_comma_space : List String → String
  | [] => ""
  | [a] => a
  | a :: b :: rest => a ++ ", " ++ join_comma_space (b :: rest)

/-- The guide f-string of `meal_suggestions` (app.py lines 195-201), after
its `.strip()`. -/
def guide_text (cal p f c : ℤ) (prefs : String) (avoid : List String)
    (lowfat : Bool) : String :=
  ("- 1日の目標：" ++ toString cal ++ " kcal / P" ++ toString p ++ "g F"
    ++ toString f ++ "g C" ++ toString c
    ++ "g\n- 配分例：朝 25% / 昼 35% / 夜 30% / 間食 10%\n- 水分：目安 体重(kg)×30〜35 ml\n- ")
  ++ (if lowfat then cut_note else bulk_note)
  ++ (" \n- 好み：" ++ (if prefs = "" then "（未入力）" else prefs)
    ++ " / アレルギー回避：" ++ (if avoid.isEmpty then "なし" else join_comma_space avoid))

structure MealPlan where
  breakfast : List String
  lunch : List String
  dinner : List String
  snack : List String
  guide : String

/-- `meal_suggestions` (app.py line 169): filter each slot's catalog by the
allergy tokens, keep the first 2 (1 for snack), fall back to the
placeholder for breakfast/lunch/dinner - but not for snack - and build the
guide string. -/
def meal_suggestions (cal p f c : ℤ) (prefs allergies goal : String) : MealPlan :=
  let avoid := parse_avoid allergies
  let lowfat := goal_is_cut goal
  let breakfast := breakfast_items.filter (meal_ok avoid)
  let lunch := lunch_items.filter (meal_ok avoid)
  let dinner := dinner_items.filter (meal_ok avoid)
  let snack := snack_items.filter (meal_ok avoid)
  { breakfast := or_placeholder (breakfast.take 2)
    lunch := or_placeholder (lunch.take 2)
    dinner := or_placeholder (dinner.take 2)
    snack := snack.take 1
    guide := guide_text cal p f c prefs avoid lowfat }

/-! ### Posture analyzer (`analyze_posture`, app.py line 212)

The geometry on the extracted landmarks: `math.atan2(dy, dx)` is
`Complex.arg ⟨dx, dy⟩`, `math.degrees` multiplies by `180/π`,
`math.hypot` is the euclidean distance. The formatted finding strings of
the source are abstracted into a `Finding` value carrying the same
computed number; the four appends happen in source order. -/

structure Pt where
  x : ℝ
  y : ℝ

structure LandmarkSet where
  leftShoulder : Pt
  rightShoulder : Pt
  leftHip : Pt
  rightHip : Pt
  leftEar : Pt
  rightEar : Pt
  leftKnee : Pt
  rightKnee : Pt
  leftAnkle : Pt
  rightAnkle : Pt

/-- `line_angle_deg` (app.py line 238): `degrees(atan2(dy, dx))`. -/
noncomputable def line_angle_deg (p1 p2 : Pt) : ℝ :=
  Complex.arg ⟨p2.x - p1.x, p2.y - p1.y⟩ * 180 / Real.pi

/-- `dist` (app.py line 243): `math.hypot`. -/
noncomputable def dist_pt (p1 p2 : Pt) : ℝ :=
  Real.sqrt ((p2.x - p1.x) ^ 2 + (p2.y - p1.y) ^ 2)

/-- One entry of the `findings` list (app.py lines 266-274), carrying the
number the source formats into the string. -/
inductive Finding where
  | shoulder_tilt (deg : ℝ)
  | hip_tilt (deg : ℝ)
  | head_tilt (deg : ℝ)
  | knee_in (r : ℝ)

open Classical in
/-- The findings of `analyze_posture` (app.py lines 247-274): the three
right-to-left symmetry angles against the 5-degree threshold, then the
knee-tracking ratio check guarded by `ankle_w > 0`. -/
noncomputable def analyze_posture (L : LandmarkSet) : List Finding :=
  let shoulder_deg := line_angle_deg L.rightShoulder L.leftShoulder
  let hip_deg := line_angle_deg L.rightHip L.leftHip
  let head_deg := line_angle_deg L.rightEar L.leftEar
  let knee_w := dist_pt L.leftKnee L.rightKnee
  let ankle_w := dist_pt L.leftAnkle L.rightAnkle
  (if 5 ≤ |shoulder_deg| then [Finding.shoulder_tilt shoulder_deg] else [])
    ++ (if 5 ≤ |hip_deg| then [Finding.hip_tilt hip_deg] else [])
    ++ (if 5 ≤ |head_deg| then [Finding.head_tilt head_deg] else [])
    ++ (if 0 < ankle_w ∧ knee_w / ankle_w < 0.9
        then [Finding.knee_in (knee_w / ankle_w)] else [])

/-- A mirrored landmark set (all five pairs symmetric about the vertical
midline x = 0.5, equal heights) whose knees stand symmetrically close:
the knee-tracking check still fires, refuting claim C7. -/
def sym_landmarks : LandmarkSet where
  leftShoulder := ⟨0.7, 0.3⟩
  rightShoulder := ⟨0.3, 0.3⟩
  leftHip := ⟨0.65, 0.5⟩
  rightHip := ⟨0.35, 0.5⟩
  leftEar := ⟨0.6, 0.1⟩
  rightEar := ⟨0.4, 0.1⟩
  leftKnee := ⟨0.52, 0.7⟩
  rightKnee := ⟨0.48, 0.7⟩
  leftAnkle := ⟨0.7, 0.9⟩
  rightAnkle := ⟨0.3, 0.9⟩

/-- A mirrored landmark set with a knee/ankle width ratio above 0.9, for
the witness of the amended claim C7. -/
def wit_landmarks : LandmarkSet where
  leftShoulder := ⟨0.7, 0.3⟩
  rightShoulder := ⟨0.3, 0.3⟩
  leftHip := ⟨0.65, 0.5⟩
  rightHip := ⟨0.35, 0.5⟩
  leftEar := ⟨0.6, 0.1⟩
  rightEar := ⟨0.4, 0.1⟩
  leftKnee := ⟨0.7, 0.7⟩
  rightKnee := ⟨0.3, 0.7⟩
  leftAnkle := ⟨0.68, 0.9⟩
  rightAnkle := ⟨0.32, 0.9⟩

theorem pyround_ge (q : ℚ) : q - 1/2 ≤ (pyround q : ℚ) := by
  simp only [pyround]
  have h0 : ((⌊q⌋ : ℤ) : ℚ) ≤ q := Int.floor_le q
  have h1 : q < (⌊q⌋ : ℤ) + 1 := Int.lt_floor_add_one q
  split_ifs <;> push_cast <;> linarith

theorem pyround_le (q : ℚ) : (pyround q : ℚ) ≤ q + 1/2 := by
  simp only [pyround]
  have h0 : ((⌊q⌋ : ℤ) : ℚ) ≤ q := Int.floor_le q
  have h1 : q < (⌊q⌋ : ℤ) + 1 := Int.lt_floor_add_one q
  split_ifs <;> push_cast <;> linarith

theorem pyround_nonneg (q : ℚ) (hq : 0 ≤ q) : 0 ≤ pyround q := by
  by_contra hneg
  push_neg at hneg
  have h1 : pyround q ≤ -1 := by omega
  have h2 : (pyround q : ℚ) ≤ -1 := by exact_mod_cast h1
  have := pyround_ge q
  linarith

theorem activity_factor_ge (level : String) : (1.2 : ℚ) ≤ activity_factor level := by
  unfold activity_factor
  split_ifs <;> norm_num

theorem mifflin_ge (gender : String) (w h age : ℚ) :
    10 * w + 6.25 * h - 5 * age - 161 ≤ mifflin_st_jeor_bmr gender w h age := by
  unfold mifflin_st_jeor_bmr
  split_ifs <;> linarith

theorem target_ge (tdee : ℚ) (goal : String) (ht : 0 ≤ tdee) :
    0.85 * tdee - 1/2 ≤ (target_calories_from_goal tdee goal : ℚ) := by
  unfold target_calories_from_goal
  split_ifs
  · linarith [pyround_ge (tdee * 0.85)]
  · linarith [pyround_ge (tdee * 0.90)]
  · linarith [pyround_ge tdee]
  · linarith [pyround_ge (tdee * 1.10)]
  · linarith [pyround_ge tdee]

/-- Claim C1 counterexample: the spec's expected values are wrong for the
code's formula. At the male example the code returns 1648.75, which is more
than 0.5 away from the spec's 1724.0. -/
theorem bmr_spec_values_false :
    ¬ (|mifflin_st_jeor_bmr "男性" 70 175 30 - 1724| ≤ 1/2 ∧
       |mifflin_st_jeor_bmr "女性" 60 160 30 - 1264| ≤ 1/2) := by
  rintro ⟨hmale, -⟩
  rw [mifflin_st_jeor_bmr, if_pos rfl] at hmale
  rw [abs_le] at hmale
  have := hmale.1
  norm_num at this

/-- Claim C1 (amended): at the spec's example inputs the code's Mifflin-St
Jeor implementation returns 1648.75 for the male case and 1289.0 for the
female case (the formula of the spec, not the spec's expected constants). -/
theorem bmr_example_values :
    mifflin_st_jeor_bmr "男性" 70 175 30 = 1648.75 ∧
    mifflin_st_jeor_bmr "女性" 60 160 30 = 1289 := by
  constructor
  · rw [mifflin_st_jeor_bmr, if_pos rfl]; norm_num
  · rw [mifflin_st_jeor_bmr, if_neg (by decide)]; norm_num

/-- Claim C4 counterexample: `calc_bmi` performs no validation. At
`weight_kg = -5`, `height_cm = 170` (weight ≤ 0, where the claim demands a
`ValidationError`) it returns the rounded formula value `-1.73` instead of
failing. -/
theorem calc_bmi_no_validation : calc_bmi (-5) 170 = some (-1.73) := by
  rw [calc_bmi, if_neg (by norm_num)]
  norm_num [round2, pyround]

/-- Claim C4 (amended): `calc_bmi` never raises a `ValidationError`: it
fails only when `height_cm = 0` (a division by zero), and for every nonzero
height - positive or not - it returns `weight/(height/100)^2` rounded to two
decimals. -/
theorem calc_bmi_total (w h : ℚ) :
    (calc_bmi w h = none ↔ h = 0) ∧
    (h ≠ 0 → calc_bmi w h = some (round2 (w / (h / 100) ^ 2))) := by
  constructor
  · unfold calc_bmi
    split_ifs with hh <;> simp [hh]
  · intro hh
    rw [calc_bmi, if_neg hh]

/-- Claim C6: for all inputs, `macro_plan` returns protein `round(1.8*w)`,
fat `round(calories*0.25/9)`, and a carbohydrate value that is never
negative (the remainder is clamped at zero before rounding). -/
theorem macro_plan_components (w cal : ℚ) (goal : String) :
    (macro_plan w cal goal).1 = pyround (1.8 * w) ∧
    (macro_plan w cal goal).2.1 = pyround (cal * 0.25 / 9) ∧
    0 ≤ (macro_plan w cal goal).2.2 := by
  refine ⟨rfl, rfl, ?_⟩
  show 0 ≤ pyround (max 0 (cal - (1.8 * w * 4 + cal * 0.25)) / 4)
  exact pyround_nonneg _ (by positivity)

/-- Claim C9: `activity_factor` maps the five known levels to 1.2, 1.375,
1.55, 1.725, 1.9, and every other string falls back to 1.2 instead of
failing. -/
theorem activity_factor_table :
    activity_factor "低い（デスクワーク中心/運動ほぼ無し）" = 1.2 ∧
    activity_factor "やや低い（週1〜2軽い運動）" = 1.375 ∧
    activity_factor "普通（週3〜4運動）" = 1.55 ∧
    activity_factor "高い（週5以上ハード）" = 1.725 ∧
    activity_factor "非常に高い（アスリート級）" = 1.9 ∧
    ∀ level : String,
      level ∉ ["低い（デスクワーク中心/運動ほぼ無し）", "やや低い（週1〜2軽い運動）",
        "普通（週3〜4運動）", "高い（週5以上ハード）", "非常に高い（アスリート級）"] →
      activity_factor level = 1.2 := by
  refine ⟨?_, ?_, ?_, ?_, ?_, ?_⟩
  · rw [activity_factor, if_pos rfl]
  · rw [activity_factor, if_neg (by decide), if_pos rfl]
  · rw [activity_factor, if_neg (by decide), if_neg (by decide), if_pos rfl]
  · rw [activity_factor, if_neg (by decide), if_neg (by decide), if_neg (by decide),
      if_pos rfl]
  · rw [activity_factor, if_neg (by decide), if_neg (by decide), if_neg (by decide),
      if_neg (by decide), if_pos rfl]
  · intro level hnot
    simp only [List.mem_cons, List.not_mem_nil, or_false, not_or] at hnot
    obtain ⟨h1, h2, h3, h4, h5⟩ := hnot
    rw [activity_factor, if_neg h1, if_neg h2, if_neg h3, if_neg h4, if_neg h5]

/-- Claim C10: any gender string other than the exact male identifier gets
the female offset `-161`; unrecognized gender is not an error and never
takes the male branch. -/
theorem bmr_default_female (gender : String) (w h age : ℚ) (hg : gender ≠ "男性") :
    mifflin_st_jeor_bmr gender w h age = 10 * w + 6.25 * h - 5 * age - 161 := by
  rw [mifflin_st_jeor_bmr, if_neg hg]

/-- Claim C10 witness: the empty gender string takes the female formula. -/
theorem bmr_default_female_witness :
    mifflin_st_jeor_bmr "" 60 160 30 = 10 * 60 + 6.25 * 160 - 5 * 30 - 161 :=
  bmr_default_female "" 60 160 30 (by decide)

/-- Claim C5: through the form pipeline (form-range weight, height and age;
any gender, activity level and goal string) the rounded macros re-compose
the calorie target: `protein_g*4 + fat_g*9 + carbs_g*4` is within 8.5 kcal
of `target_calories` (4*0.5 + 9*0.5 + 4*0.5 from the three independent
roundings). -/
theorem macro_energy_balance (gender level goal : String) (w h age : ℚ)
    (hw1 : 30 ≤ w) (hw2 : w ≤ 200) (hh1 : 120 ≤ h) (hh2 : h ≤ 220)
    (ha1 : 10 ≤ age) (ha2 : age ≤ 100) :
    |4 * ((assessment_macros gender w h age level goal).1 : ℚ)
      + 9 * ((assessment_macros gender w h age level goal).2.1 : ℚ)
      + 4 * ((assessment_macros gender w h age level goal).2.2 : ℚ)
      - (pipeline_target gender w h age level goal : ℚ)| ≤ 17/2 := by
  have hB : 10 * w + 89 ≤ mifflin_st_jeor_bmr gender w h age := by
    have := mifflin_ge gender w h age
    linarith
  have hBpos : (0 : ℚ) ≤ mifflin_st_jeor_bmr gender w h age := by linarith
  have hF := activity_factor_ge level
  have hT : (10 * w + 89) * 1.2 ≤
      mifflin_st_jeor_bmr gender w h age * activity_factor level := by nlinarith
  have hTpos : (0 : ℚ) ≤ mifflin_st_jeor_bmr gender w h age * activity_factor level := by
    nlinarith
  have hcal : 0.85 * (mifflin_st_jeor_bmr gender w h age * activity_factor level) - 1/2
      ≤ (pipeline_target gender w h age level goal : ℚ) :=
    target_ge _ goal hTpos
  set cal : ℚ := (pipeline_target gender w h age level goal : ℚ) with hcaldef
  have hcal_lb : 10.2 * w + 90.28 ≤ cal := by linarith
  have hkey : 0 ≤ cal - (1.8 * w * 4 + cal * 0.25) := by linarith
  have hmp : assessment_macros gender w h age level goal =
      (pyround (1.8 * w), pyround (cal * 0.25 / 9),
        pyround (max 0 (cal - (1.8 * w * 4 + cal * 0.25)) / 4)) := rfl
  rw [hmp]
  rw [max_eq_right hkey]
  have hp1 := pyround_ge (1.8 * w)
  have hp2 := pyround_le (1.8 * w)
  have hf1 := pyround_ge (cal * 0.25 / 9)
  have hf2 := pyround_le (cal * 0.25 / 9)
  have hc1 := pyround_ge ((cal - (1.8 * w * 4 + cal * 0.25)) / 4)
  have hc2 := pyround_le ((cal - (1.8 * w * 4 + cal * 0.25)) / 4)
  rw [abs_le]
  constructor <;> linarith

theorem or_placeholder_ne_nil (l : List String) : or_placeholder l ≠ [] := by
  cases l <;> simp [or_placeholder, placeholder_dish]

theorem starts_list_self_append (n b : List Char) : starts_list n (n ++ b) = true := by
  induction n with
  | nil => rfl
  | cons a as ih => simp [starts_list, ih]

theorem contains_list_of_starts (n h : List Char) (hs : starts_list n h = true) :
    contains_list n h = true := by
  cases h with
  | nil =>
    cases n with
    | nil => rfl
    | cons a as => simp [starts_list] at hs
  | cons b bs => simp [contains_list, hs]

theorem contains_list_append_left (a n h : List Char)
    (hc : contains_list n h = true) : contains_list n (a ++ h) = true := by
  induction a with
  | nil => simpa using hc
  | cons x xs ih =>
    simp only [List.cons_append, contains_list, Bool.or_eq_true]
    exact Or.inr ih

theorem str_contains_append (a b c : String) : str_contains (a ++ b ++ c) b = true := by
  show contains_list b.data (a ++ b ++ c).data = true
  have hdata : (a ++ b ++ c).data = a.data ++ (b.data ++ c.data) := by
    simp [String.data_append, List.append_assoc]
  rw [hdata]
  exact contains_list_append_left _ _ _
    (contains_list_of_starts _ _ (starts_list_self_append _ _))

theorem line_angle_deg_of_level (p1 p2 : Pt) (hy : p2.y = p1.y) (hx : p1.x ≤ p2.x) :
    line_angle_deg p1 p2 = 0 := by
  unfold line_angle_deg
  have hmk : (⟨p2.x - p1.x, p2.y - p1.y⟩ : ℂ) = ((p2.x - p1.x : ℝ) : ℂ) := by
    rw [Complex.ext_iff]
    refine ⟨rfl, ?_⟩
    show p2.y - p1.y = 0
    rw [hy]; ring
  rw [hmk, Complex.arg_ofReal_of_nonneg (by linarith), zero_mul, zero_div]

/-- Claim C8: the knee-tracking finding is in the findings list exactly
when the inter-ankle distance is strictly positive and the knee/ankle
width ratio is below 0.9; at zero ankle distance the check is skipped. -/
theorem knee_check_guarded (L : LandmarkSet) :
    Finding.knee_in (dist_pt L.leftKnee L.rightKnee / dist_pt L.leftAnkle L.rightAnkle)
      ∈ analyze_posture L
    ↔ (0 < dist_pt L.leftAnkle L.rightAnkle ∧
        dist_pt L.leftKnee L.rightKnee / dist_pt L.leftAnkle L.rightAnkle < 0.9) := by
  simp only [analyze_posture, List.mem_append]
  constructor
  · rintro (((h | h) | h) | h)
    · exfalso; revert h; split <;> simp
    · exfalso; revert h; split <;> simp
    · exfalso; revert h; split <;> simp
    · revert h; split <;> simp_all
  · intro hc
    refine Or.inr ?_
    rw [if_pos hc]
    simp

/-- Claim C7 counterexample: `sym_landmarks` has every left/right pair
mirrored across the vertical midline at equal heights, yet
`analyze_posture` reports a finding (the knee-tracking ratio is
0.04/0.4 = 0.1 < 0.9), so a perfectly mirrored set does not always yield
zero findings. -/
theorem sym_zero_findings_false :
    (sym_landmarks.leftShoulder.x + sym_landmarks.rightShoulder.x = 2 * 0.5 ∧
     sym_landmarks.leftShoulder.y = sym_landmarks.rightShoulder.y ∧
     sym_landmarks.leftHip.x + sym_landmarks.rightHip.x = 2 * 0.5 ∧
     sym_landmarks.leftHip.y = sym_landmarks.rightHip.y ∧
     sym_landmarks.leftEar.x + sym_landmarks.rightEar.x = 2 * 0.5 ∧
     sym_landmarks.leftEar.y = sym_landmarks.rightEar.y ∧
     sym_landmarks.leftKnee.x + sym_landmarks.rightKnee.x = 2 * 0.5 ∧
     sym_landmarks.leftKnee.y = sym_landmarks.rightKnee.y ∧
     sym_landmarks.leftAnkle.x + sym_landmarks.rightAnkle.x = 2 * 0.5 ∧
     sym_landmarks.leftAnkle.y = sym_landmarks.rightAnkle.y) ∧
    analyze_posture sym_landmarks ≠ [] := by
  constructor
  · refine ⟨?_, ?_, ?_, ?_, ?_, ?_, ?_, ?_, ?_, ?_⟩ <;> norm_num [sym_landmarks]
  · have a1 : line_angle_deg sym_landmarks.rightShoulder sym_landmarks.leftShoulder = 0 :=
      line_angle_deg_of_level _ _ (by norm_num [sym_landmarks]) (by norm_num [sym_landmarks])
    have a2 : line_angle_deg sym_landmarks.rightHip sym_landmarks.leftHip = 0 :=
      line_angle_deg_of_level _ _ (by norm_num [sym_landmarks]) (by norm_num [sym_landmarks])
    have a3 : line_angle_deg sym_landmarks.rightEar sym_landmarks.leftEar = 0 :=
      line_angle_deg_of_level _ _ (by norm_num [sym_landmarks]) (by norm_num [sym_landmarks])
    have hk : dist_pt sym_landmarks.leftKnee sym_landmarks.rightKnee = 0.04 := by
      show Real.sqrt (((0.48 : ℝ) - 0.52) ^ 2 + ((0.7 : ℝ) - 0.7) ^ 2) = 0.04
      rw [show ((0.48 : ℝ) - 0.52) ^ 2 + ((0.7 : ℝ) - 0.7) ^ 2 = 0.04 ^ 2 by norm_num,
        Real.sqrt_sq (by norm_num)]
    have ha : dist_pt sym_landmarks.leftAnkle sym_landmarks.rightAnkle = 0.4 := by
      show Real.sqrt (((0.3 : ℝ) - 0.7) ^ 2 + ((0.9 : ℝ) - 0.9) ^ 2) = 0.4
      rw [show ((0.3 : ℝ) - 0.7) ^ 2 + ((0.9 : ℝ) - 0.9) ^ 2 = 0.4 ^ 2 by norm_num,
        Real.sqrt_sq (by norm_num)]
    simp only [analyze_posture]
    rw [a1, a2, a3, hk, ha]
    rw [if_neg (by norm_num), if_neg (by norm_num), if_neg (by norm_num),
      if_pos (by norm_num)]
    simp

/-- Claim C7 (amended): a landmark set with all five left/right pairs
mirrored across a vertical midline at equal heights, left points at or
right of the midline in image coordinates, yields zero findings provided
additionally the inter-knee distance is at least 0.9 of the inter-ankle
distance (the knee-tracking ratio is not constrained by symmetry, as the
counterexample shows). -/
theorem symmetric_posture_zero_findings (L : LandmarkSet) (m : ℝ)
    (hs : L.leftShoulder.x - m = m - L.rightShoulder.x)
    (hsy : L.leftShoulder.y = L.rightShoulder.y)
    (hsm : m ≤ L.leftShoulder.x)
    (hh : L.leftHip.x - m = m - L.rightHip.x)
    (hhy : L.leftHip.y = L.rightHip.y)
    (hhm : m ≤ L.leftHip.x)
    (he : L.leftEar.x - m = m - L.rightEar.x)
    (hey : L.leftEar.y = L.rightEar.y)
    (hem : m ≤ L.leftEar.x)
    (hk : L.leftKnee.x - m = m - L.rightKnee.x)
    (hky : L.leftKnee.y = L.rightKnee.y)
    (ha : L.leftAnkle.x - m = m - L.rightAnkle.x)
    (hay : L.leftAnkle.y = L.rightAnkle.y)
    (hknee : 0.9 * dist_pt L.leftAnkle L.rightAnkle ≤ dist_pt L.leftKnee L.rightKnee) :
    analyze_posture L = [] := by
  have a1 : line_angle_deg L.rightShoulder L.leftShoulder = 0 :=
    line_angle_deg_of_level _ _ hsy (by linarith)
  have a2 : line_angle_deg L.rightHip L.leftHip = 0 :=
    line_angle_deg_of_level _ _ hhy (by linarith)
  have a3 : line_angle_deg L.rightEar L.leftEar = 0 :=
    line_angle_deg_of_level _ _ hey (by linarith)
  have hkneecond : ¬ (0 < dist_pt L.leftAnkle L.rightAnkle ∧
      dist_pt L.leftKnee L.rightKnee / dist_pt L.leftAnkle L.rightAnkle < 0.9) := by
    rintro ⟨hpos, hlt⟩
    rw [div_lt_iff₀ hpos] at hlt
    linarith
  simp only [analyze_posture]
  rw [a1, a2, a3]
  rw [if_neg (by norm_num), if_neg (by norm_num), if_neg (by norm_num), if_neg hkneecond]
  rfl

/-- Claim C7 witness: the amended claim at a concrete mirrored set with
knee width 0.4 and ankle width 0.36. -/
theorem symmetric_posture_zero_findings_witness :
    analyze_posture wit_landmarks = [] := by
  have hka : dist_pt wit_landmarks.leftKnee wit_landmarks.rightKnee = 0.4 := by
    show Real.sqrt (((0.3 : ℝ) - 0.7) ^ 2 + ((0.7 : ℝ) - 0.7) ^ 2) = 0.4
    rw [show ((0.3 : ℝ) - 0.7) ^ 2 + ((0.7 : ℝ) - 0.7) ^ 2 = 0.4 ^ 2 by norm_num,
      Real.sqrt_sq (by norm_num)]
  have haa : dist_pt wit_landmarks.leftAnkle wit_landmarks.rightAnkle = 0.36 := by
    show Real.sqrt (((0.32 : ℝ) - 0.68) ^ 2 + ((0.9 : ℝ) - 0.9) ^ 2) = 0.36
    rw [show ((0.32 : ℝ) - 0.68) ^ 2 + ((0.9 : ℝ) - 0.9) ^ 2 = 0.36 ^ 2 by norm_num,
      Real.sqrt_sq (by norm_num)]
  exact symmetric_posture_zero_findings wit_landmarks 0.5
    (by norm_num [wit_landmarks]) (by norm_num [wit_landmarks]) (by norm_num [wit_landmarks])
    (by norm_num [wit_landmarks]) (by norm_num [wit_landmarks]) (by norm_num [wit_landmarks])
    (by norm_num [wit_landmarks]) (by norm_num [wit_landmarks]) (by norm_num [wit_landmarks])
    (by norm_num [wit_landmarks]) (by norm_num [wit_landmarks]) (by norm_num [wit_landmarks])
    (by norm_num [wit_landmarks]) (by rw [hka, haa]; norm_num)

/-- Claim C2 counterexample: the snack slot has no placeholder fallback.
With allergy token `ナッツ` the single snack candidate is filtered out and
the returned snack slot is the empty list, while the claim demands the
fixed placeholder in every slot. -/
theorem snack_slot_empty_on_nut_allergy :
    (meal_suggestions 2000 120 55 250 "" "ナッツ" "現状維持").snack = [] := by decide

/-- Claim C2 (amended): breakfast, lunch and dinner are always non-empty
(placeholder on zero surviving candidates), but the snack slot is exactly
the first surviving snack candidate and is empty when none survives. -/
theorem meal_slots_filled (cal p f c : ℤ) (prefs allergies goal : String) :
    (meal_suggestions cal p f c prefs allergies goal).breakfast ≠ [] ∧
    (meal_suggestions cal p f c prefs allergies goal).lunch ≠ [] ∧
    (meal_suggestions cal p f c prefs allergies goal).dinner ≠ [] ∧
    (meal_suggestions cal p f c prefs allergies goal).snack
      = (snack_items.filter (meal_ok (parse_avoid allergies))).take 1 :=
  ⟨or_placeholder_ne_nil _, or_placeholder_ne_nil _, or_placeholder_ne_nil _, rfl⟩

/-- Claim C3 counterexample: for the cut-mild goal `緩やか減量（-10%）` -
one of the two cut variants - the guide does NOT contain the cut coaching
note (it contains the maintain/bulk note), because the source tests
`goal.startswith("減量")` and that string starts with `緩やか`. -/
theorem cut_mild_guide_lacks_cut_note :
    str_contains (meal_suggestions 2000 120 55 250 "" "" "緩やか減量（-10%）").guide
      cut_note = false ∧
    str_contains (meal_suggestions 2000 120 55 250 "" "" "緩やか減量（-10%）").guide
      bulk_note = true := by decide

/-- Claim C3 (amended): the guide contains the cut coaching note whenever
the goal string starts with `減量` (among the four form goals only
cut-aggressive `減量（-15〜20%）`), and contains the maintain/bulk note
whenever it does not (which includes cut-mild `緩やか減量（-10%）`). -/
theorem guide_note_selection (cal p f c : ℤ) (prefs allergies goal : String) :
    (goal_is_cut goal = true →
      str_contains (meal_suggestions cal p f c prefs allergies goal).guide
        cut_note = true) ∧
    (goal_is_cut goal = false →
      str_contains (meal_suggestions cal p f c prefs allergies goal).guide
        bulk_note = true) := by
  constructor <;> intro hg <;>
    · show str_contains
        (guide_text cal p f c prefs (parse_avoid allergies) (goal_is_cut goal)) _ = true
      rw [guide_text, hg]
      simp only [Bool.false_eq_true, if_true, if_false]
      exact str_contains_append _ _ _

/-- Claim C5 witness: the energy balance at a concrete form input. -/
theorem macro_energy_balance_witness :
    |4 * ((assessment_macros "男性" 70 175 30 "普通（週3〜4運動）" "現状維持").1 : ℚ)
      + 9 * ((assessment_macros "男性" 70 175 30 "普通（週3〜4運動）" "現状維持").2.1 : ℚ)
      + 4 * ((assessment_macros "男性" 70 175 30 "普通（週3〜4運動）" "現状維持").2.2 : ℚ)
      - (pipeline_target "男性" 70 175 30 "普通（週3〜4運動）" "現状維持" : ℚ)| ≤ 17/2 :=
  macro_energy_balance "男性" "普通（週3〜4運動）" "現状維持" 70 175 30
    (by norm_num) (by norm_num) (by norm_num) (by norm_num) (by norm_num) (by norm_num)

end FitnessApp
